import Mathlib

/-!
Shallow embedding of the purrcat WebSocket client core
(src/utils.ts, src/constants.ts, src/handlers/message-handler.ts,
src/handlers/event-handler.ts, src/handlers/connection-handler.ts,
src/generators.ts) and proofs about it.

Modelling conventions:
* JavaScript arrays holding buffer/queue content become Lean `List`s;
  `push` is append at the tail, `shift` is `head?`/`tail` (on an empty
  array `shift()` returns `undefined` and leaves the array unchanged,
  which is exactly `head? = none` and `tail [] = []`).
* The mutable `InternalSocketState` record becomes an explicit state value
  threaded through each operation.
* Timer handles: `reconnectTimer` is `some delay` while a retry timer is
  pending (armed and not yet fired/cancelled) and `none` otherwise;
  `clearTimeout` makes the timer not pending.
* The `AbortController` of the connection is `some aborted?` when present.
* `Math.random()` results and `Date.now()` timestamps are explicit
  parameters (`rand`, `now`); numbers are rationals.
* `JSON.parse`/`JSON.stringify` and the incoming/outgoing payload types
  are external collaborators: the model is parameterized by an incoming
  type `Inc` with a decoder `parse` and an object type `Obj` with an
  encoder `enc`.
* Operations that can throw return a result record carrying the state
  after the call, the list of events emitted by the call (in emission
  order) and an optional error message.
-/

set_option autoImplicit false

namespace Purrcat

/-- Overflow policy for a bounded buffer: 'oldest' | 'newest' | 'error'
(src/types.ts `BufferOverflowPolicy`). -/
inductive BufferOverflowPolicy where
  | oldest
  | newest
  | error
deriving DecidableEq, Repr

/-- Which buffer an overflow decision concerns: 'receive' | 'send'. -/
inductive BufferKind where
  | receive
  | send
deriving DecidableEq, Repr

/-- Reconnect backoff strategy: 'exponential' | 'linear' (src/types.ts). -/
inductive ReconnectBackoff where
  | exponential
  | linear
deriving DecidableEq, Repr

/-- WebSocket readyState constants. -/
inductive ReadyState where
  | CONNECTING
  | OPEN
  | CLOSING
  | CLOSED
deriving DecidableEq, Repr

/-- Event types emitted by the socket (src/types.ts `SocketEventType`).
`open_` and `close_` stand for the source strings 'open' and 'close'
(`open` is a Lean keyword). -/
inductive SocketEventType where
  | open_
  | close_
  | error
  | reconnect
  | received
  | sent
  | dropped
deriving DecidableEq, Repr

/-- Reason strings used by `createDroppedEvent` (src/utils.ts). -/
inductive DropReason where
  | buffer_full
  | buffer_overflow
  | send_queue_full
  | send_queue_overflow
deriving DecidableEq, Repr

/-- Outgoing payload shapes distinguished by `serializeMessage`
(src/utils.ts): a plain string, a structured object (type `Obj`,
JSON-encoded by the external encoder), or a binary payload
(ArrayBuffer/Blob, passed through unchanged). -/
inductive OutData (Obj : Type) where
  | str (s : String)
  | obj (o : Obj)
  | arrayBuffer (id : Nat)
  | blob (id : Nat)
deriving DecidableEq, Repr

/-- What actually goes over the wire: `string | ArrayBuffer | Blob`. -/
inductive WireData where
  | text (s : String)
  | arrayBuffer (id : Nat)
  | blob (id : Nat)
deriving DecidableEq, Repr

/-- The `message` metadata of a `received`/`sent` event: a decoded
incoming value, an original outgoing value, or a raw queued string. -/
inductive MsgVal (Inc Obj : Type) where
  | inc (v : Inc)
  | out (v : OutData Obj)
  | str (s : String)
deriving DecidableEq, Repr

/-- Metadata attached to a socket event, by event kind. -/
inductive EventMeta (Inc Obj : Type) where
  | noMeta
  | message (m : MsgVal Inc Obj)
  | closeInfo (code : Nat) (reason : String) (wasClean : Bool)
  | errorInfo
  | reconnectInfo (attempt : Nat) (interval : Option ℚ)
  | droppedInfo (reason : DropReason) (policy : BufferOverflowPolicy)
      (droppedMessage : Option String) (bufferSize : Nat) (bufferType : BufferKind)
deriving DecidableEq, Repr

/-- A socket event `{ type, ts, meta }` (src/types.ts `SocketEvent`). -/
structure SocketEvent (Inc Obj : Type) where
  type : SocketEventType
  ts : Nat
  meta : EventMeta Inc Obj
deriving DecidableEq, Repr

/-- Models `createEvent(type, meta)` from src/utils.ts; `Date.now()` is the
explicit `now` parameter. -/
def createEvent {Inc Obj : Type} (now : Nat) (type : SocketEventType)
    (meta : EventMeta Inc Obj) : SocketEvent Inc Obj :=
  { type := type, ts := now, meta := meta }

/-- Models `createDroppedEvent(reason, policy, droppedMessage, bufferSize, bufferType)`
from src/utils.ts. -/
def createDroppedEvent {Inc Obj : Type} (now : Nat) (reason : DropReason)
    (policy : BufferOverflowPolicy) (droppedMessage : Option String)
    (bufferSize : Nat) (bufferType : BufferKind) : SocketEvent Inc Obj :=
  createEvent now .dropped
    (.droppedInfo reason policy droppedMessage bufferSize bufferType)

/-! ## Constants (src/constants.ts) -/

def DEFAULT_RECONNECT_INTERVAL : ℚ := 1000

def DEFAULT_MAX_RECONNECT_INTERVAL : ℚ := 30000

def DEFAULT_BUFFER_SIZE : Nat := 100

def MAX_RECENT_EVENTS : Nat := 10

def RECONNECT_JITTER_RATIO : ℚ := 2 / 10

/-! ## Backoff calculator (src/utils.ts `calculateReconnectInterval`) -/

/-- The pre-jitter interval: `baseInterval * Math.pow(2, attempt)` for
exponential backoff, `baseInterval * (attempt + 1)` for linear. -/
def backoffValue (attempt : Nat) (baseInterval : ℚ) : ReconnectBackoff → ℚ
  | .exponential => baseInterval * 2 ^ attempt
  | .linear => baseInterval * ((attempt : ℚ) + 1)

/-- The jitter term `interval * RECONNECT_JITTER_RATIO * (Math.random() * 2 - 1)`;
`rand` is the value returned by `Math.random()`. -/
def reconnectJitter (interval rand : ℚ) : ℚ :=
  interval * RECONNECT_JITTER_RATIO * (rand * 2 - 1)

/-- Models `calculateReconnectInterval(attempt, baseInterval, backoff, maxInterval)`
from src/utils.ts, with the `Math.random()` draw as explicit `rand`. -/
def calculateReconnectInterval (attempt : Nat) (baseInterval : ℚ)
    (backoff : ReconnectBackoff) (maxInterval : ℚ) (rand : ℚ) : ℚ :=
  let interval := backoffValue attempt baseInterval backoff
  let jitter := reconnectJitter interval rand
  let interval2 := min (interval + jitter) maxInterval
  max 0 (min interval2 maxInterval)

/-! ## Overflow policy engine (src/utils.ts `handleBufferOverflow`) -/

inductive OverflowAction where
  | add
  | drop_oldest
  | drop_newest
  | error
deriving DecidableEq, Repr

/-- Result of `handleBufferOverflow`: the action, the dropped item if any,
and the buffer after the call (the source mutates `buffer` in place via
`shift()`; the mutation is made explicit here). -/
structure OverflowResult (T : Type) where
  action : OverflowAction
  dropped : Option T
  buffer : List T
deriving DecidableEq, Repr

/-- Models `handleBufferOverflow(policy, buffer, newItem, bufferSize, bufferType)`
from src/utils.ts. On 'oldest' at capacity, `buffer.shift()` removes and
returns the head (`head?`/`tail`); the other branches leave the buffer
untouched. -/
def handleBufferOverflow {T : Type} (policy : BufferOverflowPolicy)
    (buffer : List T) (newItem : T) (bufferSize : Nat)
    (_bufferType : BufferKind) : OverflowResult T :=
  if buffer.length < bufferSize then
    { action := .add, dropped := none, buffer := buffer }
  else if policy = .oldest then
    { action := .drop_oldest, dropped := buffer.head?, buffer := buffer.tail }
  else if policy = .newest then
    { action := .drop_newest, dropped := some newItem, buffer := buffer }
  else
    { action := .error, dropped := none, buffer := buffer }

/-- Models `serializeMessage(data)` from src/utils.ts: structured objects are
JSON-encoded by the external encoder `enc`; strings and binary payloads
pass through unchanged. -/
def serializeMessage {Obj : Type} (enc : Obj → String) : OutData Obj → WireData
  | .obj o => .text (enc o)
  | .str s => .text s
  | .arrayBuffer b => .arrayBuffer b
  | .blob b => .blob b

/-- Models the `String(message)` coercion used when queueing a non-string wire value. -/
def wireToString : WireData → String
  | .text s => s
  | .arrayBuffer _ => "[object ArrayBuffer]"
  | .blob _ => "[object Blob]"

/-! ## Configuration (src/types.ts `NormalizedSocketOptions`) -/

/-- Per-buffer settings `{ size, overflow }`. -/
structure BufferConfig where
  size : Nat
  overflow : BufferOverflowPolicy
deriving DecidableEq, Repr

/-- Normalized reconnect settings; `attempts` may be `Infinity`
(modelled as `⊤ : WithTop Nat`). -/
structure ReconnectOptions where
  enabled : Bool
  attempts : WithTop Nat
  interval : ℚ
  backoff : ReconnectBackoff
  maxInterval : ℚ
deriving DecidableEq

/-- Buffer settings for both directions. -/
structure BufferOptions where
  receive : BufferConfig
  send : BufferConfig
deriving DecidableEq, Repr

/-- Normalized socket options (url/protocols omitted: they only feed the
external `WebSocket` constructor). -/
structure NormalizedSocketOptions where
  reconnect : ReconnectOptions
  buffer : BufferOptions
deriving DecidableEq

/-! ## Shared connection state (src/types.ts `InternalSocketState`) -/

/-- The external WebSocket object held in `state.ws`: its readiness and
the payloads transmitted on it via `ws.send`. -/
structure Ws where
  readyState : ReadyState
  transmitted : List WireData
deriving DecidableEq, Repr

/-- Models `InternalSocketState<Incoming>` from src/types.ts. Callback sets are
lists of opaque callback ids (callbacks are external functions whose only
state effect, per the source comments, is none — exceptions they throw
are caught and logged). Resolver sets are lists of opaque waiter ids. -/
structure InternalSocketState (Inc Obj : Type) where
  ws : Option Ws
  isManualClose : Bool
  reconnectCount : Nat
  reconnectTimer : Option ℚ
  messageBuffer : List String
  eventQueue : List (SocketEvent Inc Obj)
  messageQueue : List String
  messageCallbacks : List Nat
  eventCallbacks : List Nat
  abortController : Option Bool
  activeMessageIterators : Nat
  activeEventIterators : Nat
  messageResolvers : List Nat
  eventResolvers : List Nat
deriving DecidableEq

/-- Models `createState()` from src/utils.ts. -/
def createState {Inc Obj : Type} : InternalSocketState Inc Obj :=
  { ws := none
    isManualClose := false
    reconnectCount := 0
    reconnectTimer := none
    messageBuffer := []
    eventQueue := []
    messageQueue := []
    messageCallbacks := []
    eventCallbacks := []
    abortController := none
    activeMessageIterators := 0
    activeEventIterators := 0
    messageResolvers := []
    eventResolvers := [] }

/-- Models `this.state.ws && this.state.ws.readyState === WebSocket.OPEN`. -/
def wsIsOpen {Inc Obj : Type} (st : InternalSocketState Inc Obj) : Bool :=
  match st.ws with
  | some w => w.readyState = .OPEN
  | none => false

/-- Models `this.state.ws.send(message)`: append the payload to the live
transport's transmitted list. -/
def wsSend {Inc Obj : Type} (st : InternalSocketState Inc Obj)
    (d : WireData) : InternalSocketState Inc Obj :=
  { st with ws := st.ws.map fun w => { w with transmitted := w.transmitted ++ [d] } }

/-! ## Event distributor (src/handlers/event-handler.ts `EventHandler.emit`) -/

/-- Models `EventHandler.emit(event)`: invoke registered event callbacks (external,
exceptions caught — no state effect), then either append to `eventQueue`
and wake/clear `eventResolvers` (active iterators present), or append and
cap the queue at `MAX_RECENT_EVENTS` by shifting the oldest entry. -/
def emit {Inc Obj : Type} (st : InternalSocketState Inc Obj)
    (event : SocketEvent Inc Obj) : InternalSocketState Inc Obj :=
  if st.activeEventIterators > 0 then
    { st with eventQueue := st.eventQueue ++ [event], eventResolvers := [] }
  else
    let q := st.eventQueue ++ [event]
    { st with eventQueue := if q.length > MAX_RECENT_EVENTS then q.tail else q }

/-! ## Message distributor (src/handlers/message-handler.ts) -/

/-- Result of a state-mutating call: the state after the call, the events
emitted during the call in emission order, and the error thrown, if any
(events already emitted and state mutations already performed before a
throw are kept, as in the source). -/
structure CallResult (Inc Obj : Type) where
  state : InternalSocketState Inc Obj
  events : List (SocketEvent Inc Obj)
  error : Option String
deriving DecidableEq

/-- Models `MessageHandler.bufferReceivedMessage(data)`: no-op without active
message iterators; otherwise run the overflow engine on `messageBuffer`
and act on the outcome ('error' throws after emitting a dropped event,
'drop_newest' emits and discards the new item, 'drop_oldest' emits then
appends, 'add' appends; the latter two wake and clear `messageResolvers`). -/
def bufferReceivedMessage {Inc Obj : Type} (opts : NormalizedSocketOptions)
    (st : InternalSocketState Inc Obj) (data : String) (now : Nat) :
    CallResult Inc Obj :=
  if st.activeMessageIterators = 0 then
    { state := st, events := [], error := none }
  else
    let r := handleBufferOverflow opts.buffer.receive.overflow st.messageBuffer
      data opts.buffer.receive.size .receive
    let st1 := { st with messageBuffer := r.buffer }
    match r.action with
    | .error =>
      let ev : SocketEvent Inc Obj := createDroppedEvent now .buffer_overflow
        opts.buffer.receive.overflow none opts.buffer.receive.size .receive
      { state := emit st1 ev, events := [ev], error := some "Message buffer overflow" }
    | .drop_newest =>
      let ev : SocketEvent Inc Obj := createDroppedEvent now .buffer_full
        opts.buffer.receive.overflow r.dropped opts.buffer.receive.size .receive
      { state := emit st1 ev, events := [ev], error := none }
    | .drop_oldest =>
      let ev : SocketEvent Inc Obj := createDroppedEvent now .buffer_full
        opts.buffer.receive.overflow r.dropped opts.buffer.receive.size .receive
      let st2 := emit st1 ev
      { state := { st2 with messageBuffer := st2.messageBuffer ++ [data],
                            messageResolvers := [] }
        events := [ev], error := none }
    | .add =>
      { state := { st1 with messageBuffer := st1.messageBuffer ++ [data],
                            messageResolvers := [] }
        events := [], error := none }

/-- Models `MessageHandler.receive(data)`: decode (`parseMessage` — JSON parse
with string fallback, via the external decoder `parse`), emit a
`received` event, invoke message callbacks (external, exceptions caught),
then buffer the raw payload. -/
def receive {Inc Obj : Type} (parse : String → Inc)
    (opts : NormalizedSocketOptions) (st : InternalSocketState Inc Obj)
    (data : String) (now : Nat) : CallResult Inc Obj :=
  let parsed := parse data
  let ev : SocketEvent Inc Obj := createEvent now .received (.message (.inc parsed))
  let st1 := emit st ev
  let r := bufferReceivedMessage opts st1 data now
  { state := r.state, events := ev :: r.events, error := r.error }

/-- Models `MessageHandler.queueSendMessage(messageStr)`: run the overflow engine
on `messageQueue` and act on the outcome (same shape as the receive side,
with send-queue drop reasons and no resolver notification). -/
def queueSendMessage {Inc Obj : Type} (opts : NormalizedSocketOptions)
    (st : InternalSocketState Inc Obj) (messageStr : String) (now : Nat) :
    CallResult Inc Obj :=
  let r := handleBufferOverflow opts.buffer.send.overflow st.messageQueue
    messageStr opts.buffer.send.size .send
  let st1 := { st with messageQueue := r.buffer }
  match r.action with
  | .error =>
    let ev : SocketEvent Inc Obj := createDroppedEvent now .send_queue_overflow
      opts.buffer.send.overflow none opts.buffer.send.size .send
    { state := emit st1 ev, events := [ev], error := some "Send queue overflow" }
  | .drop_newest =>
    let ev : SocketEvent Inc Obj := createDroppedEvent now .send_queue_full
      opts.buffer.send.overflow r.dropped opts.buffer.send.size .send
    { state := emit st1 ev, events := [ev], error := none }
  | .drop_oldest =>
    let ev : SocketEvent Inc Obj := createDroppedEvent now .send_queue_full
      opts.buffer.send.overflow r.dropped opts.buffer.send.size .send
    let st2 := emit st1 ev
    { state := { st2 with messageQueue := st2.messageQueue ++ [messageStr] }
      events := [ev], error := none }
  | .add =>
    { state := { st1 with messageQueue := st1.messageQueue ++ [messageStr] }
      events := [], error := none }

/-- Models `MessageHandler.handleSendImmediately(message, data)`: transmit on the
open transport and emit a `sent` event whose metadata is the original
(pre-serialization) outgoing value. -/
def handleSendImmediately {Inc Obj : Type}
    (st : InternalSocketState Inc Obj) (message : WireData)
    (data : OutData Obj) (now : Nat) : CallResult Inc Obj :=
  if ¬ wsIsOpen st then
    { state := st, events := [], error := none }
  else
    let st1 := wsSend st message
    let ev : SocketEvent Inc Obj := createEvent now .sent (.message (.out data))
    { state := emit st1 ev, events := [ev], error := none }

/-- Models `MessageHandler.send(data)`: serialize, send immediately when the
transport is open, otherwise stringify the wire value and queue it. -/
def send {Inc Obj : Type} (enc : Obj → String)
    (opts : NormalizedSocketOptions) (st : InternalSocketState Inc Obj)
    (data : OutData Obj) (now : Nat) : CallResult Inc Obj :=
  let message := serializeMessage enc data
  if wsIsOpen st then
    handleSendImmediately st message data now
  else
    let messageStr := wireToString message
    queueSendMessage opts st messageStr now

/-- The `while` loop of `MessageHandler.flushQueue`, recursing on the
queue contents: each iteration shifts the head off `messageQueue`, then —
only when the shifted string is truthy (non-empty) — transmits it and
emits a `sent` event. -/
def flushGo {Inc Obj : Type} (now : Nat) :
    List String → InternalSocketState Inc Obj →
    InternalSocketState Inc Obj × List (SocketEvent Inc Obj)
  | [], st => (st, [])
  | m :: rest, st =>
    let st1 := { st with messageQueue := rest }
    if m ≠ "" then
      let st2 := wsSend st1 (.text m)
      let ev : SocketEvent Inc Obj := createEvent now .sent (.message (.str m))
      let st3 := emit st2 ev
      let r := flushGo now rest st3
      (r.1, ev :: r.2)
    else
      flushGo now rest st1

/-- Models `MessageHandler.flushQueue()`: no-op unless the transport is open;
otherwise drain `messageQueue` head-first via the loop above. -/
def flushQueue {Inc Obj : Type} (st : InternalSocketState Inc Obj)
    (now : Nat) : InternalSocketState Inc Obj × List (SocketEvent Inc Obj) :=
  if ¬ wsIsOpen st then (st, [])
  else flushGo now st.messageQueue st

/-! ## Connection manager (src/handlers/connection-handler.ts) -/

/-- Models `ConnectionHandler.scheduleReconnect()`: clear any pending retry timer;
stop if `reconnectCount >= attempts`; otherwise compute the delay from the
current `reconnectCount`, emit a 'reconnect' event with
`attempt = reconnectCount + 1` and the interval, and arm the timer. -/
def scheduleReconnect {Inc Obj : Type} (opts : NormalizedSocketOptions)
    (st : InternalSocketState Inc Obj) (now : Nat) (rand : ℚ) :
    InternalSocketState Inc Obj × List (SocketEvent Inc Obj) :=
  let st := { st with reconnectTimer := none }
  if (st.reconnectCount : WithTop Nat) ≥ opts.reconnect.attempts then
    (st, [])
  else
    let interval := calculateReconnectInterval st.reconnectCount
      opts.reconnect.interval opts.reconnect.backoff opts.reconnect.maxInterval rand
    let ev : SocketEvent Inc Obj :=
      createEvent now .reconnect (.reconnectInfo (st.reconnectCount + 1) (some interval))
    let st := emit st ev
    ({ st with reconnectTimer := some interval }, [ev])

/-- Models `ConnectionHandler.connect()`: no-op when the connection's own abort
signal is already aborted; otherwise construct the transport. `ok` tells
whether the external `new WebSocket(...)` construction succeeds (the four
lifecycle hooks it installs are the `wsOnOpen`/`wsOnMessage`/`wsOnError`/
`wsOnClose` transitions below). On a synchronous construction throw: emit
an 'error' event and, when reconnect is enabled and attempts remain,
schedule a retry. -/
def connect {Inc Obj : Type} (opts : NormalizedSocketOptions)
    (st : InternalSocketState Inc Obj) (now : Nat) (rand : ℚ) (ok : Bool) :
    InternalSocketState Inc Obj × List (SocketEvent Inc Obj) :=
  if (match st.abortController with | some aborted => aborted | none => false) then
    (st, [])
  else if ok then
    ({ st with ws := some { readyState := .CONNECTING, transmitted := [] } }, [])
  else
    let ev : SocketEvent Inc Obj := createEvent now .error .errorInfo
    let st := emit st ev
    if opts.reconnect.enabled ∧
        (st.reconnectCount : WithTop Nat) < opts.reconnect.attempts then
      let r := scheduleReconnect opts st now rand
      (r.1, ev :: r.2)
    else
      (st, [ev])

/-- The retry timer's callback (src/handlers/connection-handler.ts lines
43–51): on firing (the timer is consumed), increment `reconnectCount`,
emit a 'reconnect' event carrying only the new attempt number, and call
`connect()` (whose construction outcome is `ok`). -/
def reconnectTimerFire {Inc Obj : Type} (opts : NormalizedSocketOptions)
    (st : InternalSocketState Inc Obj) (now : Nat) (rand : ℚ) (ok : Bool) :
    InternalSocketState Inc Obj × List (SocketEvent Inc Obj) :=
  let st := { st with reconnectTimer := none,
                      reconnectCount := st.reconnectCount + 1 }
  let ev : SocketEvent Inc Obj :=
    createEvent now .reconnect (.reconnectInfo st.reconnectCount none)
  let st := emit st ev
  let r := connect opts st now rand ok
  (r.1, ev :: r.2)

/-- The `ws.onopen` hook: the live transport becomes OPEN, `reconnectCount`
is reset to 0, an 'open' event is emitted, and the send queue is flushed.
Hooks fire only for the transport currently held in `state.ws`. -/
def wsOnOpen {Inc Obj : Type} (_opts : NormalizedSocketOptions)
    (st : InternalSocketState Inc Obj) (now : Nat) :
    InternalSocketState Inc Obj × List (SocketEvent Inc Obj) :=
  match st.ws with
  | none => (st, [])
  | some w =>
    let st := { st with ws := some { w with readyState := .OPEN } }
    let st := { st with reconnectCount := 0 }
    let ev : SocketEvent Inc Obj := createEvent now .open_ .noMeta
    let st := emit st ev
    let r := flushQueue st now
    (r.1, ev :: r.2)

/-- The `ws.onmessage` hook: coerce the frame to a string and forward it to
`MessageHandler.receive`. -/
def wsOnMessage {Inc Obj : Type} (parse : String → Inc)
    (opts : NormalizedSocketOptions) (st : InternalSocketState Inc Obj)
    (data : String) (now : Nat) : CallResult Inc Obj :=
  match st.ws with
  | none => { state := st, events := [], error := none }
  | some _ => receive parse opts st data now

/-- The `ws.onerror` hook: emit an 'error' event. -/
def wsOnError {Inc Obj : Type} (st : InternalSocketState Inc Obj)
    (now : Nat) : InternalSocketState Inc Obj × List (SocketEvent Inc Obj) :=
  match st.ws with
  | none => (st, [])
  | some _ =>
    let ev : SocketEvent Inc Obj := createEvent now .error .errorInfo
    (emit st ev, [ev])

/-- The `ws.onclose` hook: the transport becomes CLOSED, a 'close' event
with code/reason/wasClean is emitted, and — when the close was not manual,
reconnect is enabled, and attempts remain — a retry is scheduled. -/
def wsOnClose {Inc Obj : Type} (opts : NormalizedSocketOptions)
    (st : InternalSocketState Inc Obj) (code : Nat) (reason : String)
    (wasClean : Bool) (now : Nat) (rand : ℚ) :
    InternalSocketState Inc Obj × List (SocketEvent Inc Obj) :=
  match st.ws with
  | none => (st, [])
  | some w =>
    let st := { st with ws := some { w with readyState := .CLOSED } }
    let ev : SocketEvent Inc Obj := createEvent now .close_ (.closeInfo code reason wasClean)
    let st := emit st ev
    if ¬ st.isManualClose ∧ opts.reconnect.enabled ∧
        (st.reconnectCount : WithTop Nat) < opts.reconnect.attempts then
      let r := scheduleReconnect opts st now rand
      (r.1, ev :: r.2)
    else
      (st, [ev])

/-- Models `ConnectionHandler.close(code?, reason?)`: set `isManualClose`, clear
any pending retry timer, close and drop the live transport (the `code` and
`reason` arguments only feed the external `ws.close` call), abort and drop
the connection's own abort controller, and clear the send queue. -/
def close {Inc Obj : Type} (st : InternalSocketState Inc Obj)
    (_code : Option Nat) (_reason : Option String) : InternalSocketState Inc Obj :=
  { st with isManualClose := true
            reconnectTimer := none
            ws := none
            abortController := none
            messageQueue := [] }

/-! ## Consuming-sequence lifecycle (src/generators.ts)

The async generators suspend between items; each of the state mutations
they perform is one cooperative step: incrementing the active-iterator
counter on entry, shifting one buffered item per yield, and on exit
decrementing the counter and clearing the shared buffer when the counter
reaches 0. -/

/-- Models `messagesGenerator` entry: `state.activeMessageIterators++`. -/
def startMessagesIterator {Inc Obj : Type} (st : InternalSocketState Inc Obj) :
    InternalSocketState Inc Obj :=
  { st with activeMessageIterators := st.activeMessageIterators + 1 }

/-- One iteration of the `messagesGenerator` drain loop:
`state.messageBuffer.shift()` (when non-empty) and yield the parsed value. -/
def drainOneMessage {Inc Obj : Type} (st : InternalSocketState Inc Obj) :
    InternalSocketState Inc Obj :=
  if st.messageBuffer.length > 0 then
    { st with messageBuffer := st.messageBuffer.tail }
  else st

/-- Models `messagesGenerator` `finally` block: decrement the counter and clear
`messageBuffer` when no iterator remains (the block runs once per started
iterator, so the counter is positive when it runs). -/
def stopMessagesIterator {Inc Obj : Type} (st : InternalSocketState Inc Obj) :
    InternalSocketState Inc Obj :=
  match st.activeMessageIterators with
  | 0 => st
  | n + 1 =>
    let st := { st with activeMessageIterators := n }
    if st.activeMessageIterators = 0 then { st with messageBuffer := [] } else st

/-- Models `eventsGenerator` entry: `state.activeEventIterators++`. -/
def startEventsIterator {Inc Obj : Type} (st : InternalSocketState Inc Obj) :
    InternalSocketState Inc Obj :=
  { st with activeEventIterators := st.activeEventIterators + 1 }

/-- One iteration of the `eventsGenerator` drain loop:
`state.eventQueue.shift()` (when non-empty) and yield the event. -/
def drainOneEvent {Inc Obj : Type} (st : InternalSocketState Inc Obj) :
    InternalSocketState Inc Obj :=
  if st.eventQueue.length > 0 then
    { st with eventQueue := st.eventQueue.tail }
  else st

/-- Models `eventsGenerator` `finally` block: decrement the counter and clear
`eventQueue` when no iterator remains. -/
def stopEventsIterator {Inc Obj : Type} (st : InternalSocketState Inc Obj) :
    InternalSocketState Inc Obj :=
  match st.activeEventIterators with
  | 0 => st
  | n + 1 =>
    let st := { st with activeEventIterators := n }
    if st.activeEventIterators = 0 then { st with eventQueue := [] } else st

/-! ## Operations and runs

The cooperative, single-threaded scheduling model: an execution is a
sequence of atomic steps, each either a public API call (`send`, inbound
`receive`, `connect`, `close`), an external transport hook firing, the
retry timer firing, or a generator lifecycle step. Environment choices
(whether transport construction succeeds, `Math.random()` draws) are
carried on the operations. -/

inductive Op (Obj : Type) where
  | recv (data : String)
  | send (data : OutData Obj)
  | connect (ok : Bool) (rand : ℚ)
  | wsOpen
  | wsMessage (data : String)
  | wsError
  | wsClose (code : Nat) (reason : String) (wasClean : Bool) (rand : ℚ)
  | timerFire (ok : Bool) (rand : ℚ)
  | close (code : Option Nat) (reason : Option String)
  | startMsgIter
  | drainMsg
  | stopMsgIter
  | startEvtIter
  | drainEvt
  | stopEvtIter

/-- Whether an operation is a user-initiated `connect()` whose transport
construction throws synchronously. -/
def isFailedConnect {Obj : Type} : Op Obj → Bool
  | .connect false _ => true
  | _ => false

/-- One atomic step of the system. The retry timer can fire only while it
is pending. Exceptions thrown to the caller (overflow 'error' policy) do
not undo the state mutations already performed, so the post-state of a
throwing call is its `CallResult` state. -/
def step {Inc Obj : Type} (parse : String → Inc) (enc : Obj → String)
    (opts : NormalizedSocketOptions) (now : Nat) :
    Op Obj → InternalSocketState Inc Obj → InternalSocketState Inc Obj
  | .recv data, st => (receive parse opts st data now).state
  | .send data, st => (send enc opts st data now).state
  | .connect ok rand, st => (connect opts st now rand ok).1
  | .wsOpen, st => (wsOnOpen opts st now).1
  | .wsMessage data, st => (wsOnMessage parse opts st data now).state
  | .wsError, st => (wsOnError st now).1
  | .wsClose code reason wasClean rand, st =>
      (wsOnClose opts st code reason wasClean now rand).1
  | .timerFire ok rand, st =>
      match st.reconnectTimer with
      | some _ => (reconnectTimerFire opts st now rand ok).1
      | none => st
  | .close code reason, st => close st code reason
  | .startMsgIter, st => startMessagesIterator st
  | .drainMsg, st => drainOneMessage st
  | .stopMsgIter, st => stopMessagesIterator st
  | .startEvtIter, st => startEventsIterator st
  | .drainEvt, st => drainOneEvent st
  | .stopEvtIter, st => stopEventsIterator st

/-- Run a sequence of timestamped operations. -/
def run {Inc Obj : Type} (parse : String → Inc) (enc : Obj → String)
    (opts : NormalizedSocketOptions) :
    List (Nat × Op Obj) → InternalSocketState Inc Obj → InternalSocketState Inc Obj
  | [], st => st
  | (now, op) :: rest, st => run parse enc opts rest (step parse enc opts now op st)

/-! ## Concrete instances used by witnesses and counterexamples -/

/-- Decoder instance for witnesses: raw strings pass through. -/
def parseId : String → String := id

/-- Encoder instance for witnesses. -/
def encU : Unit → String := fun _ => "\x7b\x7d"

/-- Options with a zero-capacity receive buffer under the 'oldest' policy. -/
def optsZeroRecv : NormalizedSocketOptions :=
  { reconnect := { enabled := true, attempts := ((5 : Nat) : WithTop Nat),
                   interval := 1000, backoff := .exponential, maxInterval := 30000 }
    buffer := { receive := { size := 0, overflow := .oldest }
                send := { size := 2, overflow := .newest } } }

/-- Default-shaped options: size-2 buffers, 'oldest' policy, reconnect
enabled with 5 attempts. -/
def optsSmall : NormalizedSocketOptions :=
  { reconnect := { enabled := true, attempts := ((5 : Nat) : WithTop Nat),
                   interval := 1000, backoff := .exponential, maxInterval := 30000 }
    buffer := { receive := { size := 2, overflow := .oldest }
                send := { size := 2, overflow := .oldest } } }

/-- Options whose both buffers use the 'error' policy with capacity 1. -/
def optsErr : NormalizedSocketOptions :=
  { reconnect := { enabled := true, attempts := ((5 : Nat) : WithTop Nat),
                   interval := 1000, backoff := .exponential, maxInterval := 30000 }
    buffer := { receive := { size := 1, overflow := .error }
                send := { size := 1, overflow := .error } } }

/-- A state holding an open transport and a queued empty-string message. -/
def stEmptyStrQueued : InternalSocketState String Unit :=
  { createState with ws := some { readyState := .OPEN, transmitted := [] }
                     messageQueue := [""] }

/-- A disconnected state with both capacity-1 buffers full and one active
message consumer. -/
def stErrFull : InternalSocketState String Unit :=
  { createState with messageBuffer := ["m"], messageQueue := ["q"]
                     activeMessageIterators := 1 }

/-- A fresh state whose transport is open. -/
def stOpenEmpty : InternalSocketState String Unit :=
  { createState with ws := some { readyState := .OPEN, transmitted := [] } }

/-- The initial state at the concrete witness types. -/
def stInit : InternalSocketState String Unit := createState

/-- A state with one active event iterator and one queued event. -/
def stOneEvtIter : InternalSocketState String Unit :=
  { (createState : InternalSocketState String Unit) with
      activeEventIterators := 1
      eventQueue := [createEvent 0 .open_ .noMeta] }

/-- The payloads transmitted so far on the live transport. -/
def wsTransmitted {Inc Obj : Type} (st : InternalSocketState Inc Obj) : List WireData :=
  match st.ws with
  | some w => w.transmitted
  | none => []

/-! ## Invariants -/

/-- The bounded-buffer invariant: each buffer holds at most its configured
capacity. -/
def BufInv {Inc Obj : Type} (opts : NormalizedSocketOptions)
    (st : InternalSocketState Inc Obj) : Prop :=
  st.messageBuffer.length ≤ opts.buffer.receive.size ∧
  st.messageQueue.length ≤ opts.buffer.send.size

/-- The event-queue retention invariant: with no active event iterator the
queue holds at most `MAX_RECENT_EVENTS` entries. -/
def EvtInv {Inc Obj : Type} (st : InternalSocketState Inc Obj) : Prop :=
  st.activeEventIterators = 0 → st.eventQueue.length ≤ MAX_RECENT_EVENTS


end Purrcat

namespace Purrcat

/-! ## Frame lemmas -/

section Frames

variable {Inc Obj : Type} (st : InternalSocketState Inc Obj)
variable (ev : SocketEvent Inc Obj) (d : WireData)

@[simp] lemma emit_ws : (emit st ev).ws = st.ws := by
  simp only [emit]; split <;> rfl

@[simp] lemma emit_messageBuffer : (emit st ev).messageBuffer = st.messageBuffer := by
  simp only [emit]; split <;> rfl

@[simp] lemma emit_messageQueue : (emit st ev).messageQueue = st.messageQueue := by
  simp only [emit]; split <;> rfl

@[simp] lemma emit_isManualClose : (emit st ev).isManualClose = st.isManualClose := by
  simp only [emit]; split <;> rfl

@[simp] lemma emit_reconnectCount : (emit st ev).reconnectCount = st.reconnectCount := by
  simp only [emit]; split <;> rfl

@[simp] lemma emit_reconnectTimer : (emit st ev).reconnectTimer = st.reconnectTimer := by
  simp only [emit]; split <;> rfl

@[simp] lemma emit_abortController : (emit st ev).abortController = st.abortController := by
  simp only [emit]; split <;> rfl

@[simp] lemma emit_activeMessageIterators :
    (emit st ev).activeMessageIterators = st.activeMessageIterators := by
  simp only [emit]; split <;> rfl

@[simp] lemma emit_activeEventIterators :
    (emit st ev).activeEventIterators = st.activeEventIterators := by
  simp only [emit]; split <;> rfl

@[simp] lemma emit_messageResolvers :
    (emit st ev).messageResolvers = st.messageResolvers := by
  simp only [emit]; split <;> rfl

@[simp] lemma wsSend_messageBuffer : (wsSend st d).messageBuffer = st.messageBuffer := rfl

@[simp] lemma wsSend_messageQueue : (wsSend st d).messageQueue = st.messageQueue := rfl

@[simp] lemma wsSend_eventQueue : (wsSend st d).eventQueue = st.eventQueue := rfl

@[simp] lemma wsSend_isManualClose : (wsSend st d).isManualClose = st.isManualClose := rfl

@[simp] lemma wsSend_reconnectCount : (wsSend st d).reconnectCount = st.reconnectCount := rfl

@[simp] lemma wsSend_reconnectTimer : (wsSend st d).reconnectTimer = st.reconnectTimer := rfl

@[simp] lemma wsSend_abortController : (wsSend st d).abortController = st.abortController := rfl

@[simp] lemma wsSend_activeMessageIterators :
    (wsSend st d).activeMessageIterators = st.activeMessageIterators := rfl

@[simp] lemma wsSend_activeEventIterators :
    (wsSend st d).activeEventIterators = st.activeEventIterators := rfl

lemma wsSend_transmitted (h : st.ws.isSome) :
    wsTransmitted (wsSend st d) = wsTransmitted st ++ [d] := by
  cases hws : st.ws <;> simp_all [wsTransmitted, wsSend]

@[simp] lemma emit_transmitted : wsTransmitted (emit st ev) = wsTransmitted st := by
  unfold wsTransmitted
  rw [emit_ws]

@[simp] lemma emit_wsIsOpen : wsIsOpen (emit st ev) = wsIsOpen st := by
  unfold wsIsOpen
  rw [emit_ws]

@[simp] lemma wsSend_wsIsOpen : wsIsOpen (wsSend st d) = wsIsOpen st := by
  unfold wsIsOpen wsSend
  cases st.ws <;> rfl

end Frames

/-! ## Behaviour of the buffering paths -/

section Buffering

variable {Inc Obj : Type} (opts : NormalizedSocketOptions)

/-- Helper: `bufferReceivedMessage` throws exactly when the receive policy is
'error', the buffer is at capacity, and a message iterator is active;
in that case it emits exactly the dropped event (no dropped item) and
leaves `messageBuffer` untouched. It never touches `messageQueue`. -/
lemma bufferReceivedMessage_spec (st : InternalSocketState Inc Obj)
    (data : String) (now : Nat)
    (hbuf : st.messageBuffer.length ≤ opts.buffer.receive.size) :
    ((bufferReceivedMessage opts st data now).error.isSome ↔
      (opts.buffer.receive.overflow = .error ∧
       st.messageBuffer.length = opts.buffer.receive.size ∧
       0 < st.activeMessageIterators)) ∧
    ((bufferReceivedMessage opts st data now).error.isSome →
      (bufferReceivedMessage opts st data now).events =
        [createDroppedEvent now .buffer_overflow opts.buffer.receive.overflow
          none opts.buffer.receive.size .receive] ∧
      (bufferReceivedMessage opts st data now).state.messageBuffer = st.messageBuffer) ∧
    (bufferReceivedMessage opts st data now).state.messageQueue = st.messageQueue := by
  unfold bufferReceivedMessage handleBufferOverflow
  rcases hpol : opts.buffer.receive.overflow <;>
    rcases Nat.eq_zero_or_pos st.activeMessageIterators with hact | hact <;>
    split_ifs <;> simp_all <;> omega

/-- Helper: `queueSendMessage` throws exactly when the send policy is 'error' and
the queue is at capacity; in that case it emits exactly the dropped event
(no dropped item) and leaves `messageQueue` untouched. It never touches
`messageBuffer`. -/
lemma queueSendMessage_spec (st : InternalSocketState Inc Obj)
    (messageStr : String) (now : Nat)
    (hq : st.messageQueue.length ≤ opts.buffer.send.size) :
    ((queueSendMessage opts st messageStr now).error.isSome ↔
      (opts.buffer.send.overflow = .error ∧
       st.messageQueue.length = opts.buffer.send.size)) ∧
    ((queueSendMessage opts st messageStr now).error.isSome →
      (queueSendMessage opts st messageStr now).events =
        [createDroppedEvent now .send_queue_overflow opts.buffer.send.overflow
          none opts.buffer.send.size .send] ∧
      (queueSendMessage opts st messageStr now).state.messageQueue = st.messageQueue) ∧
    (queueSendMessage opts st messageStr now).state.messageBuffer = st.messageBuffer := by
  unfold queueSendMessage handleBufferOverflow
  rcases hpol : opts.buffer.send.overflow <;> split_ifs <;> simp_all <;> omega

end Buffering

section InvariantLemmas

variable {Inc Obj : Type} (opts : NormalizedSocketOptions)

lemma EvtInv_emit (st : InternalSocketState Inc Obj)
    (ev : SocketEvent Inc Obj) (h : EvtInv st) : EvtInv (emit st ev) := by
  unfold EvtInv emit at *
  split
  · intro h0
    simp only at h0
    omega
  · intro h0
    simp only at h0 ⊢
    have hq := h h0
    split <;> simp_all

lemma bufferReceivedMessage_frame (st : InternalSocketState Inc Obj)
    (data : String) (now : Nat) :
    (bufferReceivedMessage opts st data now).state.messageQueue = st.messageQueue ∧
    (bufferReceivedMessage opts st data now).state.isManualClose = st.isManualClose ∧
    (bufferReceivedMessage opts st data now).state.reconnectTimer = st.reconnectTimer ∧
    (bufferReceivedMessage opts st data now).state.reconnectCount = st.reconnectCount ∧
    (bufferReceivedMessage opts st data now).state.activeEventIterators =
      st.activeEventIterators ∧
    (bufferReceivedMessage opts st data now).state.activeMessageIterators =
      st.activeMessageIterators := by
  unfold bufferReceivedMessage handleBufferOverflow
  rcases opts.buffer.receive.overflow <;> split_ifs <;> simp

lemma bufferReceivedMessage_buffer_len (st : InternalSocketState Inc Obj)
    (data : String) (now : Nat) (h1 : 1 ≤ opts.buffer.receive.size)
    (hb : st.messageBuffer.length ≤ opts.buffer.receive.size) :
    (bufferReceivedMessage opts st data now).state.messageBuffer.length ≤
      opts.buffer.receive.size := by
  unfold bufferReceivedMessage handleBufferOverflow
  rcases hpol : opts.buffer.receive.overflow <;> split_ifs <;>
    simp_all [List.length_tail] <;> omega

lemma EvtInv_bufferReceivedMessage (st : InternalSocketState Inc Obj)
    (data : String) (now : Nat) (h : EvtInv st) :
    EvtInv (bufferReceivedMessage opts st data now).state := by
  unfold bufferReceivedMessage handleBufferOverflow
  rcases opts.buffer.receive.overflow <;> split_ifs <;>
    first
      | exact h
      | exact EvtInv_emit _ _ h

lemma queueSendMessage_frame (st : InternalSocketState Inc Obj)
    (messageStr : String) (now : Nat) :
    (queueSendMessage opts st messageStr now).state.messageBuffer = st.messageBuffer ∧
    (queueSendMessage opts st messageStr now).state.isManualClose = st.isManualClose ∧
    (queueSendMessage opts st messageStr now).state.reconnectTimer = st.reconnectTimer ∧
    (queueSendMessage opts st messageStr now).state.reconnectCount = st.reconnectCount ∧
    (queueSendMessage opts st messageStr now).state.activeEventIterators =
      st.activeEventIterators ∧
    (queueSendMessage opts st messageStr now).state.activeMessageIterators =
      st.activeMessageIterators := by
  unfold queueSendMessage handleBufferOverflow
  rcases opts.buffer.send.overflow <;> split_ifs <;> simp

lemma queueSendMessage_queue_len (st : InternalSocketState Inc Obj)
    (messageStr : String) (now : Nat) (h1 : 1 ≤ opts.buffer.send.size)
    (hb : st.messageQueue.length ≤ opts.buffer.send.size) :
    (queueSendMessage opts st messageStr now).state.messageQueue.length ≤
      opts.buffer.send.size := by
  unfold queueSendMessage handleBufferOverflow
  rcases hpol : opts.buffer.send.overflow <;> split_ifs <;>
    simp_all [List.length_tail] <;> omega

lemma EvtInv_queueSendMessage (st : InternalSocketState Inc Obj)
    (messageStr : String) (now : Nat) (h : EvtInv st) :
    EvtInv (queueSendMessage opts st messageStr now).state := by
  unfold queueSendMessage handleBufferOverflow
  rcases opts.buffer.send.overflow <;> split_ifs <;>
    first
      | exact h
      | exact EvtInv_emit _ _ h

lemma receive_frame (parse : String → Inc) (st : InternalSocketState Inc Obj)
    (data : String) (now : Nat) :
    (receive parse opts st data now).state.messageQueue = st.messageQueue ∧
    (receive parse opts st data now).state.isManualClose = st.isManualClose ∧
    (receive parse opts st data now).state.reconnectTimer = st.reconnectTimer ∧
    (receive parse opts st data now).state.reconnectCount = st.reconnectCount ∧
    (receive parse opts st data now).state.activeEventIterators =
      st.activeEventIterators ∧
    (receive parse opts st data now).state.activeMessageIterators =
      st.activeMessageIterators := by
  have h := bufferReceivedMessage_frame opts
    (emit st (createEvent now .received (.message (.inc (parse data))))) data now
  simp only [emit_messageQueue, emit_isManualClose, emit_reconnectTimer,
    emit_reconnectCount, emit_activeEventIterators, emit_activeMessageIterators] at h
  exact h

lemma receive_buffer_len (parse : String → Inc) (st : InternalSocketState Inc Obj)
    (data : String) (now : Nat) (h1 : 1 ≤ opts.buffer.receive.size)
    (hb : st.messageBuffer.length ≤ opts.buffer.receive.size) :
    (receive parse opts st data now).state.messageBuffer.length ≤
      opts.buffer.receive.size := by
  have h := bufferReceivedMessage_buffer_len opts
    (emit st (createEvent now .received (.message (.inc (parse data))))) data now h1
    (by rw [emit_messageBuffer]; exact hb)
  exact h

lemma EvtInv_receive (parse : String → Inc) (st : InternalSocketState Inc Obj)
    (data : String) (now : Nat) (h : EvtInv st) :
    EvtInv (receive parse opts st data now).state :=
  EvtInv_bufferReceivedMessage opts _ data now (EvtInv_emit _ _ h)

lemma handleSendImmediately_frame (st : InternalSocketState Inc Obj)
    (message : WireData) (data : OutData Obj) (now : Nat) :
    (handleSendImmediately st message data now).state.messageBuffer = st.messageBuffer ∧
    (handleSendImmediately st message data now).state.messageQueue = st.messageQueue ∧
    (handleSendImmediately st message data now).state.isManualClose = st.isManualClose ∧
    (handleSendImmediately st message data now).state.reconnectTimer =
      st.reconnectTimer ∧
    (handleSendImmediately st message data now).state.activeEventIterators =
      st.activeEventIterators := by
  unfold handleSendImmediately
  split_ifs <;> simp

lemma EvtInv_handleSendImmediately (st : InternalSocketState Inc Obj)
    (message : WireData) (data : OutData Obj) (now : Nat) (h : EvtInv st) :
    EvtInv (handleSendImmediately st message data now).state := by
  unfold handleSendImmediately
  split_ifs
  all_goals first
    | exact h
    | (refine EvtInv_emit _ _ ?_; exact h)

lemma send_frame (enc : Obj → String) (st : InternalSocketState Inc Obj)
    (data : OutData Obj) (now : Nat) :
    (send enc opts st data now).state.messageBuffer = st.messageBuffer ∧
    (send enc opts st data now).state.isManualClose = st.isManualClose ∧
    (send enc opts st data now).state.reconnectTimer = st.reconnectTimer ∧
    (send enc opts st data now).state.activeEventIterators =
      st.activeEventIterators := by
  unfold send
  split_ifs
  · have h := handleSendImmediately_frame st (serializeMessage enc data) data now
    exact ⟨h.1, h.2.2.1, h.2.2.2.1, h.2.2.2.2⟩
  · have h := queueSendMessage_frame opts st
      (wireToString (serializeMessage enc data)) now
    exact ⟨h.1, h.2.1, h.2.2.1, h.2.2.2.2.1⟩

lemma send_queue_len (enc : Obj → String) (st : InternalSocketState Inc Obj)
    (data : OutData Obj) (now : Nat) (h1 : 1 ≤ opts.buffer.send.size)
    (hb : st.messageQueue.length ≤ opts.buffer.send.size) :
    (send enc opts st data now).state.messageQueue.length ≤
      opts.buffer.send.size := by
  unfold send
  split_ifs
  · rw [(handleSendImmediately_frame st (serializeMessage enc data) data now).2.1]
    exact hb
  · exact queueSendMessage_queue_len opts st _ now h1 hb

lemma EvtInv_send (enc : Obj → String) (st : InternalSocketState Inc Obj)
    (data : OutData Obj) (now : Nat) (h : EvtInv st) :
    EvtInv (send enc opts st data now).state := by
  unfold send
  split_ifs
  · exact EvtInv_handleSendImmediately _ _ _ _ h
  · exact EvtInv_queueSendMessage opts _ _ _ h

lemma flushGo_frame (now : Nat) (q : List String) (st : InternalSocketState Inc Obj) :
    (flushGo now q st).1.messageBuffer = st.messageBuffer ∧
    (flushGo now q st).1.isManualClose = st.isManualClose ∧
    (flushGo now q st).1.reconnectTimer = st.reconnectTimer ∧
    (flushGo now q st).1.reconnectCount = st.reconnectCount ∧
    (flushGo now q st).1.activeEventIterators = st.activeEventIterators ∧
    (flushGo now q st).1.activeMessageIterators = st.activeMessageIterators ∧
    (flushGo now q st).1.abortController = st.abortController := by
  induction q generalizing st with
  | nil => simp [flushGo]
  | cons m rest ih =>
    by_cases hm : m = "" <;> simp [flushGo, hm, ih]

lemma flushGo_messageQueue (now : Nat) (q : List String)
    (st : InternalSocketState Inc Obj) (hq : st.messageQueue = q) :
    (flushGo now q st).1.messageQueue = [] := by
  induction q generalizing st with
  | nil => simpa [flushGo] using hq
  | cons m rest ih =>
    by_cases hm : m = "" <;> simp [flushGo, hm] <;> exact ih _ (by simp)

lemma EvtInv_flushGo (now : Nat) (q : List String)
    (st : InternalSocketState Inc Obj) (h : EvtInv st) :
    EvtInv (flushGo now q st).1 := by
  induction q generalizing st with
  | nil => exact h
  | cons m rest ih =>
    unfold flushGo
    by_cases hm : m = "" <;> simp only [hm, ne_eq, not_true_eq_false, if_false,
      not_false_eq_true, if_true]
    · exact ih _ h
    · exact ih _ (EvtInv_emit _ _ h)

lemma flushQueue_frame (st : InternalSocketState Inc Obj) (now : Nat) :
    (flushQueue st now).1.messageBuffer = st.messageBuffer ∧
    (flushQueue st now).1.isManualClose = st.isManualClose ∧
    (flushQueue st now).1.reconnectTimer = st.reconnectTimer ∧
    (flushQueue st now).1.reconnectCount = st.reconnectCount ∧
    (flushQueue st now).1.activeEventIterators = st.activeEventIterators ∧
    (flushQueue st now).1.activeMessageIterators = st.activeMessageIterators := by
  unfold flushQueue
  split_ifs
  all_goals first
    | (have h := flushGo_frame now st.messageQueue st
       exact ⟨h.1, h.2.1, h.2.2.1, h.2.2.2.1, h.2.2.2.2.1, h.2.2.2.2.2.1⟩)
    | simp

lemma flushQueue_queue_len (st : InternalSocketState Inc Obj) (now : Nat) :
    (flushQueue st now).1.messageQueue.length ≤ st.messageQueue.length := by
  unfold flushQueue
  split_ifs
  all_goals first
    | exact le_rfl
    | (rw [flushGo_messageQueue now st.messageQueue st rfl]
       simp)

lemma EvtInv_flushQueue (st : InternalSocketState Inc Obj) (now : Nat)
    (h : EvtInv st) : EvtInv (flushQueue st now).1 := by
  unfold flushQueue
  split_ifs
  all_goals first
    | exact h
    | exact EvtInv_flushGo now st.messageQueue st h

lemma scheduleReconnect_frame (st : InternalSocketState Inc Obj)
    (now : Nat) (rand : ℚ) :
    (scheduleReconnect opts st now rand).1.messageBuffer = st.messageBuffer ∧
    (scheduleReconnect opts st now rand).1.messageQueue = st.messageQueue ∧
    (scheduleReconnect opts st now rand).1.isManualClose = st.isManualClose ∧
    (scheduleReconnect opts st now rand).1.reconnectCount = st.reconnectCount ∧
    (scheduleReconnect opts st now rand).1.activeEventIterators =
      st.activeEventIterators ∧
    (scheduleReconnect opts st now rand).1.activeMessageIterators =
      st.activeMessageIterators ∧
    (scheduleReconnect opts st now rand).1.ws = st.ws ∧
    (scheduleReconnect opts st now rand).1.abortController = st.abortController := by
  unfold scheduleReconnect
  dsimp only
  split_ifs <;> simp

lemma EvtInv_scheduleReconnect (st : InternalSocketState Inc Obj)
    (now : Nat) (rand : ℚ) (h : EvtInv st) :
    EvtInv (scheduleReconnect opts st now rand).1 := by
  unfold scheduleReconnect
  dsimp only
  split_ifs
  all_goals first
    | exact h
    | (refine EvtInv_emit _ _ ?_; exact h)

lemma connect_frame (st : InternalSocketState Inc Obj)
    (now : Nat) (rand : ℚ) (ok : Bool) :
    (connect opts st now rand ok).1.messageBuffer = st.messageBuffer ∧
    (connect opts st now rand ok).1.messageQueue = st.messageQueue ∧
    (connect opts st now rand ok).1.isManualClose = st.isManualClose ∧
    (connect opts st now rand ok).1.reconnectCount = st.reconnectCount ∧
    (connect opts st now rand ok).1.activeEventIterators =
      st.activeEventIterators ∧
    (connect opts st now rand ok).1.activeMessageIterators =
      st.activeMessageIterators := by
  unfold connect
  dsimp only
  split_ifs
  all_goals first
    | (have h := scheduleReconnect_frame opts
        (emit st (createEvent now .error .errorInfo)) now rand
       simp only [emit_messageBuffer, emit_messageQueue, emit_isManualClose,
         emit_reconnectCount, emit_activeEventIterators,
         emit_activeMessageIterators] at h
       exact ⟨h.1, h.2.1, h.2.2.1, h.2.2.2.1, h.2.2.2.2.1, h.2.2.2.2.2.1⟩)
    | simp

lemma EvtInv_connect (st : InternalSocketState Inc Obj)
    (now : Nat) (rand : ℚ) (ok : Bool) (h : EvtInv st) :
    EvtInv (connect opts st now rand ok).1 := by
  unfold connect
  dsimp only
  split_ifs
  all_goals first
    | exact h
    | (refine EvtInv_scheduleReconnect opts _ now rand ?_
       refine EvtInv_emit _ _ ?_
       exact h)
    | (refine EvtInv_emit _ _ ?_; exact h)

lemma reconnectTimerFire_frame (st : InternalSocketState Inc Obj)
    (now : Nat) (rand : ℚ) (ok : Bool) :
    (reconnectTimerFire opts st now rand ok).1.messageBuffer = st.messageBuffer ∧
    (reconnectTimerFire opts st now rand ok).1.messageQueue = st.messageQueue ∧
    (reconnectTimerFire opts st now rand ok).1.isManualClose = st.isManualClose ∧
    (reconnectTimerFire opts st now rand ok).1.activeEventIterators =
      st.activeEventIterators ∧
    (reconnectTimerFire opts st now rand ok).1.activeMessageIterators =
      st.activeMessageIterators := by
  unfold reconnectTimerFire
  have h := connect_frame opts
    (emit { st with reconnectTimer := none, reconnectCount := st.reconnectCount + 1 }
      (createEvent now .reconnect (.reconnectInfo (st.reconnectCount + 1) none)))
    now rand ok
  simp only [emit_messageBuffer, emit_messageQueue, emit_isManualClose,
    emit_activeEventIterators, emit_activeMessageIterators] at h
  exact ⟨h.1, h.2.1, h.2.2.1, h.2.2.2.2.1, h.2.2.2.2.2⟩

lemma EvtInv_reconnectTimerFire (st : InternalSocketState Inc Obj)
    (now : Nat) (rand : ℚ) (ok : Bool) (h : EvtInv st) :
    EvtInv (reconnectTimerFire opts st now rand ok).1 :=
  EvtInv_connect opts _ now rand ok (EvtInv_emit _ _ h)

lemma wsOnOpen_frame (st : InternalSocketState Inc Obj) (now : Nat) :
    (wsOnOpen opts st now).1.messageBuffer = st.messageBuffer ∧
    (wsOnOpen opts st now).1.isManualClose = st.isManualClose ∧
    (wsOnOpen opts st now).1.reconnectTimer = st.reconnectTimer ∧
    (wsOnOpen opts st now).1.activeEventIterators = st.activeEventIterators ∧
    (wsOnOpen opts st now).1.activeMessageIterators = st.activeMessageIterators := by
  unfold wsOnOpen
  cases hws : st.ws with
  | none => simp
  | some w =>
    dsimp only
    have h := flushQueue_frame
      (emit { st with ws := some { w with readyState := .OPEN }, reconnectCount := 0 }
        (createEvent now .open_ .noMeta)) now
    simp only [emit_messageBuffer, emit_isManualClose, emit_reconnectTimer,
      emit_activeEventIterators, emit_activeMessageIterators] at h
    exact ⟨h.1, h.2.1, h.2.2.1, h.2.2.2.2.1, h.2.2.2.2.2⟩

lemma wsOnOpen_queue_len (st : InternalSocketState Inc Obj) (now : Nat) :
    (wsOnOpen opts st now).1.messageQueue.length ≤ st.messageQueue.length := by
  unfold wsOnOpen
  cases hws : st.ws with
  | none => simp
  | some w =>
    dsimp only
    have h := flushQueue_queue_len
      (emit { st with ws := some { w with readyState := .OPEN }, reconnectCount := 0 }
        (createEvent now .open_ .noMeta)) now
    simpa using h

lemma EvtInv_wsOnOpen (st : InternalSocketState Inc Obj) (now : Nat)
    (h : EvtInv st) : EvtInv (wsOnOpen opts st now).1 := by
  unfold wsOnOpen
  cases hws : st.ws with
  | none => exact h
  | some w =>
    dsimp only
    refine EvtInv_flushQueue _ now ?_
    refine EvtInv_emit _ _ ?_
    exact h

lemma wsOnClose_frame (st : InternalSocketState Inc Obj) (code : Nat)
    (reason : String) (wasClean : Bool) (now : Nat) (rand : ℚ) :
    (wsOnClose opts st code reason wasClean now rand).1.messageBuffer =
      st.messageBuffer ∧
    (wsOnClose opts st code reason wasClean now rand).1.messageQueue =
      st.messageQueue ∧
    (wsOnClose opts st code reason wasClean now rand).1.isManualClose =
      st.isManualClose ∧
    (wsOnClose opts st code reason wasClean now rand).1.reconnectCount =
      st.reconnectCount ∧
    (wsOnClose opts st code reason wasClean now rand).1.activeEventIterators =
      st.activeEventIterators ∧
    (wsOnClose opts st code reason wasClean now rand).1.activeMessageIterators =
      st.activeMessageIterators := by
  unfold wsOnClose
  cases hws : st.ws with
  | none => simp
  | some w =>
    dsimp only
    split_ifs
    all_goals first
      | (have h := scheduleReconnect_frame opts
          (emit { st with ws := some { w with readyState := .CLOSED } }
            (createEvent now .close_ (.closeInfo code reason wasClean))) now rand
         simp only [emit_messageBuffer, emit_messageQueue, emit_isManualClose,
           emit_reconnectCount, emit_activeEventIterators,
           emit_activeMessageIterators] at h
         exact ⟨h.1, h.2.1, h.2.2.1, h.2.2.2.1, h.2.2.2.2.1, h.2.2.2.2.2.1⟩)
      | simp

lemma EvtInv_wsOnClose (st : InternalSocketState Inc Obj) (code : Nat)
    (reason : String) (wasClean : Bool) (now : Nat) (rand : ℚ)
    (h : EvtInv st) : EvtInv (wsOnClose opts st code reason wasClean now rand).1 := by
  unfold wsOnClose
  cases hws : st.ws with
  | none => exact h
  | some w =>
    dsimp only
    split_ifs
    all_goals first
      | (refine EvtInv_scheduleReconnect opts _ now rand ?_
         refine EvtInv_emit _ _ ?_
         exact h)
      | (refine EvtInv_emit _ _ ?_; exact h)

lemma wsOnClose_quiet (st : InternalSocketState Inc Obj) (code : Nat)
    (reason : String) (wasClean : Bool) (now : Nat) (rand : ℚ)
    (hman : st.isManualClose = true) :
    (wsOnClose opts st code reason wasClean now rand).1.reconnectTimer =
      st.reconnectTimer := by
  unfold wsOnClose
  cases hws : st.ws with
  | none => rfl
  | some w =>
    dsimp only
    split_ifs with hcond
    · exact absurd (by simp [hman]) hcond.1
    · simp

lemma EvtInv_wsOnError (st : InternalSocketState Inc Obj) (now : Nat)
    (h : EvtInv st) : EvtInv (wsOnError st now).1 := by
  unfold wsOnError
  cases hws : st.ws with
  | none => exact h
  | some w =>
    dsimp only
    refine EvtInv_emit _ _ ?_
    exact h

lemma wsOnError_frame (st : InternalSocketState Inc Obj) (now : Nat) :
    (wsOnError st now).1.messageBuffer = st.messageBuffer ∧
    (wsOnError st now).1.messageQueue = st.messageQueue ∧
    (wsOnError st now).1.isManualClose = st.isManualClose ∧
    (wsOnError st now).1.reconnectTimer = st.reconnectTimer ∧
    (wsOnError st now).1.activeEventIterators = st.activeEventIterators ∧
    (wsOnError st now).1.activeMessageIterators = st.activeMessageIterators := by
  unfold wsOnError
  cases hws : st.ws with
  | none => simp
  | some w => dsimp only; simp

lemma step_BufInv (parse : String → Inc) (enc : Obj → String) (now : Nat)
    (op : Op Obj) (st : InternalSocketState Inc Obj)
    (h1 : 1 ≤ opts.buffer.receive.size) (h2 : 1 ≤ opts.buffer.send.size)
    (h : BufInv opts st) : BufInv opts (step parse enc opts now op st) := by
  obtain ⟨hb, hq⟩ := h
  cases op with
  | recv data =>
    simp only [step]
    exact ⟨receive_buffer_len opts parse st data now h1 hb,
      by rw [(receive_frame opts parse st data now).1]; exact hq⟩
  | send data =>
    simp only [step]
    exact ⟨by rw [(send_frame opts enc st data now).1]; exact hb,
      send_queue_len opts enc st data now h2 hq⟩
  | connect ok rand =>
    simp only [step]
    have hf := connect_frame opts st now rand ok
    exact ⟨by rw [hf.1]; exact hb, by rw [hf.2.1]; exact hq⟩
  | wsOpen =>
    simp only [step]
    exact ⟨by rw [(wsOnOpen_frame opts st now).1]; exact hb,
      le_trans (wsOnOpen_queue_len opts st now) hq⟩
  | wsMessage data =>
    show BufInv opts (wsOnMessage parse opts st data now).state
    unfold wsOnMessage
    cases hws : st.ws with
    | none => exact ⟨hb, hq⟩
    | some w =>
      exact ⟨receive_buffer_len opts parse st data now h1 hb,
        by rw [(receive_frame opts parse st data now).1]; exact hq⟩
  | wsError =>
    simp only [step]
    have hf := wsOnError_frame st now
    exact ⟨by rw [hf.1]; exact hb, by rw [hf.2.1]; exact hq⟩
  | wsClose code reason wasClean rand =>
    simp only [step]
    have hf := wsOnClose_frame opts st code reason wasClean now rand
    exact ⟨by rw [hf.1]; exact hb, by rw [hf.2.1]; exact hq⟩
  | timerFire ok rand =>
    show BufInv opts (match st.reconnectTimer with
      | some _ => (reconnectTimerFire opts st now rand ok).1
      | none => st)
    cases htm : st.reconnectTimer with
    | none => exact ⟨hb, hq⟩
    | some t =>
      have hf := reconnectTimerFire_frame opts st now rand ok
      exact ⟨by rw [hf.1]; exact hb, by rw [hf.2.1]; exact hq⟩
  | close code reason =>
    exact ⟨hb, by simp [step, close]⟩
  | startMsgIter => exact ⟨hb, hq⟩
  | drainMsg =>
    show BufInv opts (drainOneMessage st)
    unfold drainOneMessage
    split_ifs
    · exact ⟨by simp [List.length_tail]; omega, hq⟩
    · exact ⟨hb, hq⟩
  | stopMsgIter =>
    show BufInv opts (stopMessagesIterator st)
    unfold stopMessagesIterator
    cases st.activeMessageIterators with
    | zero => exact ⟨hb, hq⟩
    | succ n =>
      dsimp only
      split_ifs
      · exact ⟨by simp, hq⟩
      · exact ⟨hb, hq⟩
  | startEvtIter => exact ⟨hb, hq⟩
  | drainEvt =>
    show BufInv opts (drainOneEvent st)
    unfold drainOneEvent
    split_ifs
    · exact ⟨hb, hq⟩
    · exact ⟨hb, hq⟩
  | stopEvtIter =>
    show BufInv opts (stopEventsIterator st)
    unfold stopEventsIterator
    cases st.activeEventIterators with
    | zero => exact ⟨hb, hq⟩
    | succ n =>
      dsimp only
      split_ifs
      · exact ⟨hb, hq⟩
      · exact ⟨hb, hq⟩

lemma step_EvtInv (parse : String → Inc) (enc : Obj → String) (now : Nat)
    (op : Op Obj) (st : InternalSocketState Inc Obj)
    (h : EvtInv st) : EvtInv (step parse enc opts now op st) := by
  cases op with
  | recv data => exact EvtInv_receive opts parse st data now h
  | send data => exact EvtInv_send opts enc st data now h
  | connect ok rand => exact EvtInv_connect opts st now rand ok h
  | wsOpen => exact EvtInv_wsOnOpen opts st now h
  | wsMessage data =>
    show EvtInv (wsOnMessage parse opts st data now).state
    unfold wsOnMessage
    cases hws : st.ws with
    | none => exact h
    | some w => exact EvtInv_receive opts parse st data now h
  | wsError => exact EvtInv_wsOnError st now h
  | wsClose code reason wasClean rand =>
    exact EvtInv_wsOnClose opts st code reason wasClean now rand h
  | timerFire ok rand =>
    show EvtInv (match st.reconnectTimer with
      | some _ => (reconnectTimerFire opts st now rand ok).1
      | none => st)
    cases htm : st.reconnectTimer with
    | none => exact h
    | some t => exact EvtInv_reconnectTimerFire opts st now rand ok h
  | close code reason => exact h
  | startMsgIter => exact h
  | drainMsg =>
    show EvtInv (drainOneMessage st)
    unfold drainOneMessage
    split_ifs
    · exact h
    · exact h
  | stopMsgIter =>
    show EvtInv (stopMessagesIterator st)
    unfold stopMessagesIterator
    cases st.activeMessageIterators with
    | zero => exact h
    | succ n =>
      dsimp only
      split_ifs
      · exact h
      · exact h
  | startEvtIter =>
    intro h0
    simp only [step, startEventsIterator] at h0
    omega
  | drainEvt =>
    show EvtInv (drainOneEvent st)
    unfold drainOneEvent
    split_ifs
    · intro h0
      have := h h0
      simp only [List.length_tail]
      omega
    · exact h
  | stopEvtIter =>
    show EvtInv (stopEventsIterator st)
    unfold stopEventsIterator
    cases st.activeEventIterators with
    | zero => exact h
    | succ n =>
      dsimp only
      split_ifs with hn
      · intro _
        simp
      · intro h0
        exact absurd h0 hn

lemma run_BufInv (parse : String → Inc) (enc : Obj → String)
    (ops : List (Nat × Op Obj)) (st : InternalSocketState Inc Obj)
    (h1 : 1 ≤ opts.buffer.receive.size) (h2 : 1 ≤ opts.buffer.send.size)
    (h : BufInv opts st) : BufInv opts (run parse enc opts ops st) := by
  induction ops generalizing st with
  | nil => exact h
  | cons p rest ih =>
    exact ih _ (step_BufInv opts parse enc p.1 p.2 st h1 h2 h)

lemma run_EvtInv (parse : String → Inc) (enc : Obj → String)
    (ops : List (Nat × Op Obj)) (st : InternalSocketState Inc Obj)
    (h : EvtInv st) : EvtInv (run parse enc opts ops st) := by
  induction ops generalizing st with
  | nil => exact h
  | cons p rest ih =>
    exact ih _ (step_EvtInv opts parse enc p.1 p.2 st h)

lemma step_quiet (parse : String → Inc) (enc : Obj → String) (now : Nat)
    (op : Op Obj) (st : InternalSocketState Inc Obj)
    (hop : isFailedConnect op = false) (hman : st.isManualClose = true)
    (htm : st.reconnectTimer = none) :
    (step parse enc opts now op st).isManualClose = true ∧
    (step parse enc opts now op st).reconnectTimer = none := by
  cases op with
  | recv data =>
    simp only [step]
    have hf := receive_frame opts parse st data now
    exact ⟨by rw [hf.2.1]; exact hman, by rw [hf.2.2.1]; exact htm⟩
  | send data =>
    simp only [step]
    have hf := send_frame opts enc st data now
    exact ⟨by rw [hf.2.1]; exact hman, by rw [hf.2.2.1]; exact htm⟩
  | connect ok rand =>
    cases ok with
    | false => exact absurd hop (by simp [isFailedConnect])
    | true =>
      show (connect opts st now rand true).1.isManualClose = true ∧
        (connect opts st now rand true).1.reconnectTimer = none
      have hf := connect_frame opts st now rand true
      refine ⟨by rw [hf.2.2.1]; exact hman, ?_⟩
      unfold connect
      dsimp only
      split_ifs
      all_goals first
        | exact htm
        | simp_all
  | wsOpen =>
    simp only [step]
    have hf := wsOnOpen_frame opts st now
    exact ⟨by rw [hf.2.1]; exact hman, by rw [hf.2.2.1]; exact htm⟩
  | wsMessage data =>
    show (wsOnMessage parse opts st data now).state.isManualClose = true ∧
      (wsOnMessage parse opts st data now).state.reconnectTimer = none
    unfold wsOnMessage
    cases hws : st.ws with
    | none => exact ⟨hman, htm⟩
    | some w =>
      have hf := receive_frame opts parse st data now
      exact ⟨by rw [hf.2.1]; exact hman, by rw [hf.2.2.1]; exact htm⟩
  | wsError =>
    simp only [step]
    have hf := wsOnError_frame st now
    exact ⟨by rw [hf.2.2.1]; exact hman, by rw [hf.2.2.2.1]; exact htm⟩
  | wsClose code reason wasClean rand =>
    simp only [step]
    have hf := wsOnClose_frame opts st code reason wasClean now rand
    exact ⟨by rw [hf.2.2.1]; exact hman,
      by rw [wsOnClose_quiet opts st code reason wasClean now rand hman]; exact htm⟩
  | timerFire ok rand =>
    show (match st.reconnectTimer with
      | some _ => (reconnectTimerFire opts st now rand ok).1
      | none => st).isManualClose = true ∧
      (match st.reconnectTimer with
        | some _ => (reconnectTimerFire opts st now rand ok).1
        | none => st).reconnectTimer = none
    rw [htm]
    exact ⟨hman, htm⟩
  | close code reason => exact ⟨rfl, rfl⟩
  | startMsgIter => exact ⟨hman, htm⟩
  | drainMsg =>
    show (drainOneMessage st).isManualClose = true ∧
      (drainOneMessage st).reconnectTimer = none
    unfold drainOneMessage
    split_ifs
    · exact ⟨hman, htm⟩
    · exact ⟨hman, htm⟩
  | stopMsgIter =>
    show (stopMessagesIterator st).isManualClose = true ∧
      (stopMessagesIterator st).reconnectTimer = none
    unfold stopMessagesIterator
    cases st.activeMessageIterators with
    | zero => exact ⟨hman, htm⟩
    | succ n =>
      dsimp only
      split_ifs
      · exact ⟨hman, htm⟩
      · exact ⟨hman, htm⟩
  | startEvtIter => exact ⟨hman, htm⟩
  | drainEvt =>
    show (drainOneEvent st).isManualClose = true ∧
      (drainOneEvent st).reconnectTimer = none
    unfold drainOneEvent
    split_ifs
    · exact ⟨hman, htm⟩
    · exact ⟨hman, htm⟩
  | stopEvtIter =>
    show (stopEventsIterator st).isManualClose = true ∧
      (stopEventsIterator st).reconnectTimer = none
    unfold stopEventsIterator
    cases st.activeEventIterators with
    | zero => exact ⟨hman, htm⟩
    | succ n =>
      dsimp only
      split_ifs
      · exact ⟨hman, htm⟩
      · exact ⟨hman, htm⟩

lemma run_quiet (parse : String → Inc) (enc : Obj → String)
    (ops : List (Nat × Op Obj)) (st : InternalSocketState Inc Obj)
    (hops : ∀ p ∈ ops, isFailedConnect p.2 = false)
    (hman : st.isManualClose = true) (htm : st.reconnectTimer = none) :
    (run parse enc opts ops st).isManualClose = true ∧
    (run parse enc opts ops st).reconnectTimer = none := by
  induction ops generalizing st with
  | nil => exact ⟨hman, htm⟩
  | cons p rest ih =>
    have hstep := step_quiet opts parse enc p.1 p.2 st
      (hops p (by simp)) hman htm
    exact ih _ (fun q hq => hops q (by simp [hq])) hstep.1 hstep.2

end InvariantLemmas

/-! # Claim theorems -/

/-- C2. For every policy, buffer, new item and capacity,
`handleBufferOverflow` returns 'add' with the buffer unmodified exactly
when the length is strictly below capacity; otherwise 'oldest' removes the
head (`shift` semantics: `head?`/`tail`) and returns it as the dropped
item, 'newest' returns 'drop_newest' with the new item as dropped leaving
the buffer unchanged, and 'error' returns 'error' leaving the buffer
unchanged; 'drop_oldest' is the only outcome that removes an element. -/
theorem overflow_engine_spec {T : Type} (policy : BufferOverflowPolicy)
    (buffer : List T) (newItem : T) (bufferSize : Nat) (bt : BufferKind) :
    ((handleBufferOverflow policy buffer newItem bufferSize bt).action = .add
        ↔ buffer.length < bufferSize) ∧
    ((handleBufferOverflow policy buffer newItem bufferSize bt).action = .add →
      (handleBufferOverflow policy buffer newItem bufferSize bt).buffer = buffer ∧
      (handleBufferOverflow policy buffer newItem bufferSize bt).dropped = none) ∧
    (¬ buffer.length < bufferSize →
      (policy = .oldest →
        (handleBufferOverflow policy buffer newItem bufferSize bt).action = .drop_oldest ∧
        (handleBufferOverflow policy buffer newItem bufferSize bt).buffer = buffer.tail ∧
        (handleBufferOverflow policy buffer newItem bufferSize bt).dropped = buffer.head?) ∧
      (policy = .newest →
        (handleBufferOverflow policy buffer newItem bufferSize bt).action = .drop_newest ∧
        (handleBufferOverflow policy buffer newItem bufferSize bt).dropped = some newItem ∧
        (handleBufferOverflow policy buffer newItem bufferSize bt).buffer = buffer) ∧
      (policy = .error →
        (handleBufferOverflow policy buffer newItem bufferSize bt).action = .error ∧
        (handleBufferOverflow policy buffer newItem bufferSize bt).buffer = buffer)) ∧
    ((handleBufferOverflow policy buffer newItem bufferSize bt).action ≠ .drop_oldest →
      (handleBufferOverflow policy buffer newItem bufferSize bt).buffer = buffer) := by
  unfold handleBufferOverflow
  rcases policy <;> split_ifs <;> simp_all

/-- Witness for C2: the 'oldest' branch at capacity on a concrete buffer. -/
theorem overflow_engine_spec_witness :
    (handleBufferOverflow .oldest [1, 2] 3 2 .receive).action = .drop_oldest ∧
    (handleBufferOverflow .oldest [1, 2] 3 2 .receive).buffer = [2] ∧
    (handleBufferOverflow .oldest [1, 2] 3 2 .receive).dropped = some 1 := by
  have h := overflow_engine_spec .oldest [1, 2] 3 2 .receive
  exact ((h.2.2.1 (by decide)).1 rfl)

/-- C5 counterexample. With a negative cap the result is not clamped
into `[0, cap]`: at `attempt = 0`, `base = 0`, `cap = -1`, `rand = 0` the
function returns `0`, which exceeds the cap, so the claim fails for this
configured cap. -/
theorem backoff_cap_cex :
    calculateReconnectInterval 0 0 .exponential (-1) 0 = 0 ∧
    ¬ calculateReconnectInterval 0 0 .exponential (-1) 0 ≤ (-1 : ℚ) := by
  norm_num [calculateReconnectInterval, backoffValue, reconnectJitter,
    RECONNECT_JITTER_RATIO]

/-- C5 amended (cap at least 0). For every attempt ≥ 0, base interval,
strategy and non-negative cap, the function computes `base * 2^attempt`
(exponential) or `base * (attempt + 1)` (linear), adds a jitter term
bounded by ±20% of that value (for `Math.random()` draws in `[0, 1]`),
and clamps the sum to `[0, cap]`; the result is deterministic given the
random draw. -/
theorem backoff_calculator_spec (attempt : Nat) (base : ℚ)
    (backoff : ReconnectBackoff) (cap r : ℚ)
    (hr0 : 0 ≤ r) (hr1 : r ≤ 1) (hcap : 0 ≤ cap) :
    calculateReconnectInterval attempt base backoff cap r =
      max 0 (min (backoffValue attempt base backoff +
        reconnectJitter (backoffValue attempt base backoff) r) cap) ∧
    (0 ≤ backoffValue attempt base backoff →
      - ( RECONNECT_JITTER_RATIO * backoffValue attempt base backoff) ≤
          reconnectJitter (backoffValue attempt base backoff) r ∧
      reconnectJitter (backoffValue attempt base backoff) r ≤
        RECONNECT_JITTER_RATIO * backoffValue attempt base backoff) ∧
    0 ≤ calculateReconnectInterval attempt base backoff cap r ∧
    calculateReconnectInterval attempt base backoff cap r ≤ cap := by
  refine ⟨?_, ?_, ?_, ?_⟩
  · simp only [calculateReconnectInterval]
    rw [min_assoc, min_self]
  · intro hv
    unfold reconnectJitter RECONNECT_JITTER_RATIO
    constructor <;> nlinarith
  · unfold calculateReconnectInterval
    exact le_max_left _ _
  · unfold calculateReconnectInterval
    exact max_le hcap (min_le_right _ _)

/-- Witness for C5: a concrete evaluation with `attempt = 1`,
`base = 100`, linear backoff, `cap = 30000`, `rand = 1/2`. -/
theorem backoff_calculator_spec_witness :
    calculateReconnectInterval 1 100 .linear 30000 (1/2) =
      max 0 (min (backoffValue 1 100 .linear +
        reconnectJitter (backoffValue 1 100 .linear) (1/2)) 30000) ∧
    0 ≤ calculateReconnectInterval 1 100 .linear 30000 (1/2) ∧
    calculateReconnectInterval 1 100 .linear 30000 (1/2) ≤ 30000 := by
  have h := backoff_calculator_spec 1 100 .linear 30000 (1/2)
    (by norm_num) (by norm_num) (by norm_num)
  exact ⟨h.1, h.2.2.1, h.2.2.2⟩

/-- C6. Inbound receive throws exactly when the receive policy is
'error', the receive buffer is at capacity and at least one message
consumer is active; send while disconnected throws exactly when the send
policy is 'error' and the send queue is at capacity. In each failing case
a `dropped` event with no `droppedMessage` is the last event emitted
before the throw and the buffer/queue contents are unchanged by the call.
(The capacity hypotheses are the reachable-state invariant of C1.) -/
theorem overflow_error_policy_spec {Inc Obj : Type} (parse : String → Inc)
    (enc : Obj → String) (opts : NormalizedSocketOptions)
    (st : InternalSocketState Inc Obj) (dataR : String) (dataS : OutData Obj)
    (now : Nat)
    (hbuf : st.messageBuffer.length ≤ opts.buffer.receive.size)
    (hq : st.messageQueue.length ≤ opts.buffer.send.size) :
    ((receive parse opts st dataR now).error.isSome ↔
      (opts.buffer.receive.overflow = .error ∧
       st.messageBuffer.length = opts.buffer.receive.size ∧
       0 < st.activeMessageIterators)) ∧
    ((receive parse opts st dataR now).error.isSome →
      (receive parse opts st dataR now).events =
        [createEvent now .received (.message (.inc (parse dataR))),
         createDroppedEvent now .buffer_overflow opts.buffer.receive.overflow
           none opts.buffer.receive.size .receive] ∧
      (receive parse opts st dataR now).state.messageBuffer = st.messageBuffer ∧
      (receive parse opts st dataR now).state.messageQueue = st.messageQueue) ∧
    (wsIsOpen st = false →
      ((send enc opts st dataS now).error.isSome ↔
        (opts.buffer.send.overflow = .error ∧
         st.messageQueue.length = opts.buffer.send.size)) ∧
      ((send enc opts st dataS now).error.isSome →
        (send enc opts st dataS now).events =
          [createDroppedEvent now .send_queue_overflow opts.buffer.send.overflow
            none opts.buffer.send.size .send] ∧
        (send enc opts st dataS now).state.messageQueue = st.messageQueue ∧
        (send enc opts st dataS now).state.messageBuffer = st.messageBuffer)) := by
  have hrecv := bufferReceivedMessage_spec opts
    (emit st (createEvent now .received (.message (.inc (parse dataR)))))
    dataR now (by rw [emit_messageBuffer]; exact hbuf)
  rw [emit_messageBuffer, emit_activeMessageIterators, emit_messageQueue] at hrecv
  refine ⟨?_, ?_, ?_⟩
  · unfold receive
    exact hrecv.1
  · unfold receive
    intro herr
    refine ⟨?_, (hrecv.2.1 herr).2, hrecv.2.2⟩
    simp only [List.cons.injEq, true_and]
    exact (hrecv.2.1 herr).1
  · intro hws
    have hsendq := queueSendMessage_spec opts st
      (wireToString (serializeMessage enc dataS)) now hq
    unfold send
    rw [hws]
    simp only [Bool.false_eq_true, if_false]
    exact ⟨hsendq.1, fun herr =>
      ⟨(hsendq.2.1 herr).1, (hsendq.2.1 herr).2, hsendq.2.2⟩⟩

/-- Witness for C6: policy 'error', capacity-1 buffers both full, one
active message consumer, transport absent; both calls throw. -/
theorem overflow_error_policy_spec_witness :
    (receive parseId optsErr stErrFull "x" 0).error.isSome = true ∧
    (send encU optsErr stErrFull (.str "y") 0).error.isSome = true := by
  have h := overflow_error_policy_spec parseId encU optsErr stErrFull
    "x" (.str "y") 0 (by decide) (by decide)
  constructor
  · exact h.1.mpr (by decide)
  · exact ((h.2.2 (by decide)).1).mpr (by decide)

/-- C9. A structured (object) payload sent while the transport is open
is JSON-encoded, the encoded text is what is transmitted, and the `sent`
event of that call carries the original pre-encoding object as its
message metadata; the call does not throw. -/
theorem send_roundtrip_spec {Inc Obj : Type} (enc : Obj → String)
    (opts : NormalizedSocketOptions) (st : InternalSocketState Inc Obj)
    (o : Obj) (now : Nat) (hws : wsIsOpen st = true) :
    (send enc opts st (.obj o) now).events =
      [createEvent now .sent (.message (.out (.obj o)))] ∧
    wsTransmitted (send enc opts st (.obj o) now).state =
      wsTransmitted st ++ [.text (enc o)] ∧
    (send enc opts st (.obj o) now).error = none := by
  have hsome : st.ws.isSome := by
    unfold wsIsOpen at hws
    rcases hst : st.ws with _ | w
    · rw [hst] at hws; simp at hws
    · rfl
  refine ⟨?_, ?_, ?_⟩ <;>
    simp [send, handleSendImmediately, serializeMessage, hws,
      wsSend_transmitted _ _ hsome]

/-- Witness for C9: a concrete object sent on an open transport. -/
theorem send_roundtrip_spec_witness :
    (send encU optsSmall stOpenEmpty (.obj ()) 0).events =
      [createEvent 0 .sent (.message (.out (.obj ())))] ∧
    wsTransmitted (send encU optsSmall stOpenEmpty (.obj ()) 0).state =
      [.text (encU ())] ∧
    (send encU optsSmall stOpenEmpty (.obj ()) 0).error = none := by
  have h := send_roundtrip_spec encU optsSmall stOpenEmpty () 0 (by decide)
  exact ⟨h.1, by rw [h.2.1]; rfl, h.2.2⟩

/-- C8 evaluation at the failing input. With the transport open and the
send queue holding the empty string (reachable: `send('')` while
disconnected), `flushQueue` dequeues the item but transmits nothing and
emits no `sent` event — the `if (message)` truthiness guard drops the
empty-string message instead of only guarding against `undefined`. -/
theorem flushQueue_drops_empty_string :
    stEmptyStrQueued.messageQueue = [""] ∧
    (flushQueue stEmptyStrQueued 0).1.messageQueue = [] ∧
    wsTransmitted (flushQueue stEmptyStrQueued 0).1 = [] ∧
    (flushQueue stEmptyStrQueued 0).2 = [] := by
  refine ⟨rfl, ?_, ?_, ?_⟩ <;> rfl

/-- C1 counterexample. With a configured receive capacity of 0 and the
'oldest' policy, one inbound receive with an active message consumer puts
the buffer one past its capacity: at capacity the engine's `shift()` on
the empty buffer removes nothing and the caller then appends, so
`messageBuffer` ends with 1 > 0 elements. The invariant therefore fails
for this configured capacity. -/
theorem buffer_capacity_cex :
    optsZeroRecv.buffer.receive.size = 0 ∧
    (run parseId encU optsZeroRecv
      [(0, .startMsgIter), (0, .recv "a")] createState).messageBuffer.length = 1 := by
  exact ⟨rfl, rfl⟩

/-- C1 amended (capacities at least 1). For every configuration whose
receive and send capacities are at least 1, every overflow policy, and
every sequence of operations (inbound receives, sends, transport events,
timer firings, generator lifecycle steps) starting from the initial
state, the receive buffer and the send queue never exceed their
configured capacities after each operation completes. -/
theorem buffer_capacity_invariant {Inc Obj : Type} (parse : String → Inc)
    (enc : Obj → String) (opts : NormalizedSocketOptions)
    (h1 : 1 ≤ opts.buffer.receive.size) (h2 : 1 ≤ opts.buffer.send.size)
    (ops : List (Nat × Op Obj)) :
    (run parse enc opts ops createState).messageBuffer.length ≤
      opts.buffer.receive.size ∧
    (run parse enc opts ops createState).messageQueue.length ≤
      opts.buffer.send.size :=
  run_BufInv opts parse enc ops createState h1 h2
    ⟨by simp [createState], by simp [createState]⟩

/-- Witness for C1: the concrete capacity-2 'oldest' scenario — feed three
messages with one active consumer; both bounds hold after the run. -/
theorem buffer_capacity_invariant_witness :
    (run parseId encU optsSmall
      [(0, .startMsgIter), (0, .recv "m1"), (0, .recv "m2"), (0, .recv "m3")]
      createState).messageBuffer.length ≤ optsSmall.buffer.receive.size ∧
    (run parseId encU optsSmall
      [(0, .startMsgIter), (0, .recv "m1"), (0, .recv "m2"), (0, .recv "m3")]
      createState).messageQueue.length ≤ optsSmall.buffer.send.size :=
  buffer_capacity_invariant parseId encU optsSmall (by decide) (by decide) _

/-- C3 counterexample. `close()` followed by a user-initiated
`connect()` whose transport construction throws arms a retry timer: the
construction-failure path of `connect` checks only that reconnect is
enabled and attempts remain, never `isManualClose` (and `close()` also
nulls the abort controller, so `connect`'s abort guard passes). Thus a
retry timer is armed after a close, refuting the claim. -/
theorem manual_shutdown_cex :
    (run parseId encU optsSmall [((0 : Nat), (Op.close none none : Op Unit))]
      createState).isManualClose = true ∧
    (run parseId encU optsSmall
      [((0 : Nat), (Op.close none none : Op Unit)), (1, .connect false (1/2))]
      createState).reconnectTimer.isSome = true := by
  exact ⟨rfl, rfl⟩

/-- C3 amended. After `close()`, `isManualClose` stays set and no
retry timer is ever armed by any later operation — inbound receives,
sends, transport open/message/error/close events, timer firings (none can
fire: the timer is cancelled), generator steps, further closes, or a
later `connect()` that succeeds — with the single exception of a later
user-initiated `connect()` whose transport construction fails, whose
catch path schedules a reconnect without consulting `isManualClose`. -/
theorem manual_shutdown_amended {Inc Obj : Type} (parse : String → Inc)
    (enc : Obj → String) (opts : NormalizedSocketOptions)
    (ops : List (Nat × Op Obj)) (st : InternalSocketState Inc Obj)
    (code : Option Nat) (reason : Option String)
    (hops : ∀ p ∈ ops, isFailedConnect p.2 = false) :
    (run parse enc opts ops (close st code reason)).isManualClose = true ∧
    (run parse enc opts ops (close st code reason)).reconnectTimer = none :=
  run_quiet opts parse enc ops (close st code reason) hops rfl rfl

/-- Witness for C3 (amended): after a close, a transport close event, a
successful connect and a receive arm no timer. -/
theorem manual_shutdown_amended_witness :
    (run parseId encU optsSmall
      [((1 : Nat), .wsClose 1006 "abnormal" false (1/2)), (2, .connect true 0),
       (3, .recv "m")]
      (close stOpenEmpty (some 1000) (some "bye"))).isManualClose = true ∧
    (run parseId encU optsSmall
      [((1 : Nat), .wsClose 1006 "abnormal" false (1/2)), (2, .connect true 0),
       (3, .recv "m")]
      (close stOpenEmpty (some 1000) (some "bye"))).reconnectTimer = none :=
  manual_shutdown_amended parseId encU optsSmall _ stOpenEmpty
    (some 1000) (some "bye") (by decide)

/-- C4. `scheduleReconnect()` first cancels any pending retry timer
(at most one is ever outstanding: the state holds at most one, and both
branches overwrite it); when `retryCount >= attempts` it does nothing
further; otherwise it emits exactly one 'reconnect' event carrying
`attempt = retryCount + 1` and the delay computed from the current
`retryCount`, and arms the timer without touching `retryCount`. The
armed timer's firing increments `retryCount`, emits a 'reconnect' event
carrying the new attempt number and no interval, and then calls
`connect()` — the post-fire state and the remaining emitted events are
exactly those of `connect()` run from the incremented state. -/
theorem schedule_reconnect_spec {Inc Obj : Type}
    (opts : NormalizedSocketOptions) (st : InternalSocketState Inc Obj)
    (now : Nat) (rand : ℚ) (ok : Bool) :
    ((opts.reconnect.attempts ≤ (st.reconnectCount : WithTop Nat) →
      (scheduleReconnect opts st now rand).1 = { st with reconnectTimer := none } ∧
      (scheduleReconnect opts st now rand).2 = []) ∧
     ((st.reconnectCount : WithTop Nat) < opts.reconnect.attempts →
      (scheduleReconnect opts st now rand).2 =
        [createEvent now .reconnect (.reconnectInfo (st.reconnectCount + 1)
          (some (calculateReconnectInterval st.reconnectCount
            opts.reconnect.interval opts.reconnect.backoff
            opts.reconnect.maxInterval rand)))] ∧
      (scheduleReconnect opts st now rand).1.reconnectTimer =
        some (calculateReconnectInterval st.reconnectCount
          opts.reconnect.interval opts.reconnect.backoff
          opts.reconnect.maxInterval rand) ∧
      (scheduleReconnect opts st now rand).1.reconnectCount = st.reconnectCount)) ∧
    ((reconnectTimerFire opts st now rand ok).1.reconnectCount = st.reconnectCount + 1 ∧
     (reconnectTimerFire opts st now rand ok).1 =
       (connect opts
         (emit { st with reconnectTimer := none,
                         reconnectCount := st.reconnectCount + 1 }
           (createEvent now .reconnect (.reconnectInfo (st.reconnectCount + 1) none)))
         now rand ok).1 ∧
     (reconnectTimerFire opts st now rand ok).2 =
       createEvent now .reconnect (.reconnectInfo (st.reconnectCount + 1) none) ::
         (connect opts
           (emit { st with reconnectTimer := none,
                           reconnectCount := st.reconnectCount + 1 }
             (createEvent now .reconnect (.reconnectInfo (st.reconnectCount + 1) none)))
           now rand ok).2) := by
  refine ⟨⟨?_, ?_⟩, ?_, rfl, rfl⟩
  · intro hterm
    unfold scheduleReconnect
    dsimp only
    rw [if_pos hterm]
    exact ⟨rfl, rfl⟩
  · intro hlt
    unfold scheduleReconnect
    dsimp only
    rw [if_neg (not_le_of_lt hlt)]
    refine ⟨rfl, rfl, ?_⟩
    simp
  · have hf := connect_frame opts
      (emit { st with reconnectTimer := none,
                      reconnectCount := st.reconnectCount + 1 }
        (createEvent now .reconnect (.reconnectInfo (st.reconnectCount + 1) none)))
      now rand ok
    show (connect opts _ now rand ok).1.reconnectCount = st.reconnectCount + 1
    rw [hf.2.2.2.1]
    simp

/-- Witness for C4: scheduling from the initial state with 5 attempts
configured emits the scheduled-flavour event and arms the timer. -/
theorem schedule_reconnect_spec_witness :
    (scheduleReconnect optsSmall stInit 0 (1/2)).2 =
      [createEvent 0 .reconnect (.reconnectInfo 1
        (some (calculateReconnectInterval 0 optsSmall.reconnect.interval
          optsSmall.reconnect.backoff optsSmall.reconnect.maxInterval (1/2))))] ∧
    (scheduleReconnect optsSmall stInit 0 (1/2)).1.reconnectTimer =
      some (calculateReconnectInterval 0 optsSmall.reconnect.interval
        optsSmall.reconnect.backoff optsSmall.reconnect.maxInterval (1/2)) := by
  have h := (schedule_reconnect_spec optsSmall stInit 0 (1/2) true).1.2 (by decide)
  exact ⟨h.1, h.2.1⟩

/-- C7. While at least one event consumer is active, `emit` appends
the event to `eventQueue` unconditionally (no bound); while none is
active, the queue is capped at `MAX_RECENT_EVENTS` (10) — in every
reachable state with no active consumer the queue length is at most 10,
and an emit into a full queue drops exactly the oldest entry; and the
finishing consumer's teardown empties the queue exactly when the active
count goes from 1 to 0 (a teardown with other consumers still active
leaves the queue untouched). -/
theorem event_queue_retention_spec {Inc Obj : Type} (parse : String → Inc)
    (enc : Obj → String) (opts : NormalizedSocketOptions) :
    (∀ (st : InternalSocketState Inc Obj) (ev : SocketEvent Inc Obj),
      0 < st.activeEventIterators →
      (emit st ev).eventQueue = st.eventQueue ++ [ev]) ∧
    (∀ (st : InternalSocketState Inc Obj) (ev : SocketEvent Inc Obj),
      st.activeEventIterators = 0 →
      st.eventQueue.length = MAX_RECENT_EVENTS →
      (emit st ev).eventQueue = st.eventQueue.tail ++ [ev]) ∧
    (∀ ops : List (Nat × Op Obj),
      (run parse enc opts ops createState).activeEventIterators = 0 →
      (run parse enc opts ops createState).eventQueue.length ≤ MAX_RECENT_EVENTS) ∧
    (∀ st : InternalSocketState Inc Obj, 0 < st.activeEventIterators →
      (stopEventsIterator st).eventQueue =
        (if st.activeEventIterators = 1 then [] else st.eventQueue) ∧
      (stopEventsIterator st).activeEventIterators =
        st.activeEventIterators - 1) := by
  refine ⟨?_, ?_, ?_, ?_⟩
  · intro st ev hact
    unfold emit
    rw [if_pos hact]
  · intro st ev hact hlen
    unfold emit
    rw [if_neg (by omega)]
    dsimp only
    rw [if_pos (by simp [hlen])]
    rcases hq : st.eventQueue with _ | ⟨x, t⟩
    · rw [hq] at hlen
      simp [MAX_RECENT_EVENTS] at hlen
    · simp
  · intro ops hact
    exact run_EvtInv opts parse enc ops createState (by intro _; simp [createState]) hact
  · intro st hact
    unfold stopEventsIterator
    rcases hn : st.activeEventIterators with _ | n
    · omega
    · dsimp only
      by_cases h0 : n = 0
      · subst h0
        simp
      · rw [if_neg h0, if_neg (by omega)]
        exact ⟨rfl, by simp⟩

/-- Witness for C7: a concrete emit with one active consumer appends; a
concrete teardown from one active consumer flushes the queue. -/
theorem event_queue_retention_spec_witness :
    (emit stOneEvtIter (createEvent 1 .error .errorInfo)).eventQueue =
      [createEvent 0 .open_ .noMeta, createEvent 1 .error .errorInfo] ∧
    (stopEventsIterator stOneEvtIter).eventQueue = [] := by
  have h := event_queue_retention_spec parseId encU optsSmall
  constructor
  · rw [h.1 stOneEvtIter _ (by decide)]
    rfl
  · rw [(h.2.2.2 stOneEvtIter (by decide)).1]
    rfl

/-- C10. `close(code?, reason?)` sets `isManualClose`, clears the
retry timer, drops the transport handle, aborts and drops the abort
controller, and empties the send queue; every other field of the shared
state — receive buffer, event queue, reconnect count, callback sets,
active iterator counters, resolver sets — is unchanged. -/
theorem close_frame_spec {Inc Obj : Type} (st : InternalSocketState Inc Obj)
    (code : Option Nat) (reason : Option String) :
    (close st code reason).isManualClose = true ∧
    (close st code reason).reconnectTimer = none ∧
    (close st code reason).ws = none ∧
    (close st code reason).abortController = none ∧
    (close st code reason).messageQueue = [] ∧
    (close st code reason).messageBuffer = st.messageBuffer ∧
    (close st code reason).eventQueue = st.eventQueue ∧
    (close st code reason).reconnectCount = st.reconnectCount ∧
    (close st code reason).messageCallbacks = st.messageCallbacks ∧
    (close st code reason).eventCallbacks = st.eventCallbacks ∧
    (close st code reason).activeMessageIterators = st.activeMessageIterators ∧
    (close st code reason).activeEventIterators = st.activeEventIterators ∧
    (close st code reason).messageResolvers = st.messageResolvers ∧
    (close st code reason).eventResolvers = st.eventResolvers := by
  refine ⟨rfl, rfl, rfl, rfl, rfl, rfl, rfl, rfl, rfl, rfl, rfl, rfl, rfl, rfl⟩

end Purrcat
